import Mathlib

/-!
# Verification of the shopify-serial-webhook handlers

A shallow embedding of the serial-allocation webhook handlers
(`api/webhook.py`, `api/cleartime-webhook.py`, `api/process-order.py`,
`api/create_product.py`).  Remote Shopify calls are modelled by an
environment record of call outcomes (`Env`, `EditEnv`) together with an
explicit `World` state holding the counter metafield, the order note, and
counts of the remote calls performed; Python strings are Lean `String`s
with the needed `str` methods (`upper`, `lower`, `strip`, `startswith`,
`endswith`) spelled out over the underlying character list.
-/

namespace ShopifySerial

/-- Python `s.upper()` (the SKUs and titles involved are ASCII). -/
def pyUpper (s : String) : String := ⟨s.data.map Char.toUpper⟩

/-- Python `s.lower()`. -/
def pyLower (s : String) : String := ⟨s.data.map Char.toLower⟩

/-- Python `s.strip()`: whitespace removed from both ends. -/
def pyStrip (s : String) : String :=
  ⟨((s.data.dropWhile Char.isWhitespace).reverse.dropWhile Char.isWhitespace).reverse⟩

/-- Python `s.startswith(pre)`. -/
def pyStartsWith (s pre : String) : Bool := pre.data.isPrefixOf s.data

/-- Python `s.endswith(suf)`. -/
def pyEndsWith (s suf : String) : Bool := suf.data.isSuffixOf s.data

/-- A line item of the inbound order payload: `item.get('title','')`,
`item.get('product_id')`, `item.get('id')`, `item.get('sku','')`,
`item.get('quantity', 1)`. -/
structure LineItem where
  title : String
  product_id : Nat
  id : Nat
  sku : String
  quantity : Nat
deriving DecidableEq

/-- The mutable remote state touched by one handler invocation.
`counter` is the serial-counter metafield addressed by the handler's
namespace+key (`some (metafield_id, value)`, or `none` when the metafields
list comes back empty); `counterReads`/`counterWrites` count the GET/PUT
calls issued against it; `note` is the order's free-text note (`''` when
the order has none); `sheetRows` counts rows successfully inserted into
the Google Sheet; `productsCreated` counts products successfully created. -/
structure World where
  counter : Option (Nat × Int)
  counterReads : Nat
  counterWrites : Nat
  note : String
  sheetRows : Nat
  productsCreated : Nat
deriving DecidableEq

/-- Outcomes of the remote calls (`shopify_api_call` / sheet access return
`None`/failure exactly when the corresponding flag is `false`). -/
structure Env where
  counterReadOk : Bool
  counterWriteOk : Bool
  masterOk : Bool
  createOk : Bool
  orderFetchOk : Bool
  orderUpdateOk : Bool
  sheetOk : Bool
deriving DecidableEq

/-- Outcomes of the four order-edit calls made by
`replace_line_item_in_order`: begin edit (returning the `order_edit` id),
add line item, remove line item, commit. -/
structure EditEnv where
  beginResult : Option Nat
  addResult : Option Unit
  removeResult : Option Unit
  commitResult : Option Unit
deriving DecidableEq

/-- `webhook.py::verify_webhook`, parameterised by the base64-encoded
HMAC-SHA256 digest function (the hash itself is opaque to this model):
`if not SHOPIFY_SECRET or not hmac_header: return False` and otherwise a
constant-time comparison of the computed digest with the header. -/
def verify_webhook (hmac_sha256_b64 : String → String → String)
    (SHOPIFY_SECRET : String) (data hmac_header : String) : Bool :=
  if SHOPIFY_SECRET = "" ∨ hmac_header = "" then false
  else hmac_sha256_b64 SHOPIFY_SECRET data == hmac_header

/-- `webhook.py::get_next_serial`: GET the `global_serial_counter`
metafield; on failure or an empty metafields list return `(None, None)`;
otherwise format `serial = f"LCK-{current}"`, issue a fire-and-forget PUT
of `current + 1`, and return `(serial, current)` regardless of the PUT's
outcome. -/
def get_next_serial (env : Env) (w : World) : Option (String × Int) × World :=
  let w := { w with counterReads := w.counterReads + 1 }
  if env.counterReadOk then
    match w.counter with
    | some (metafield_id, current) =>
      let serial := "LCK-" ++ toString current
      let next_val := current + 1
      let w := { w with counterWrites := w.counterWrites + 1 }
      let w := if env.counterWriteOk then
          { w with counter := some (metafield_id, next_val) } else w
      (some (serial, current), w)
    | none => (none, w)
  else (none, w)

/-- The guard of `webhook.py`'s line-item loop:
`if sku and sku.startswith('LCK-') and not product_title.startswith('--')`.
Note the SKU comparison is against the literal `'LCK-'` with no case
folding. -/
def webhook_is_clock_item (sku product_title : String) : Bool :=
  (!decide (sku = "")) && pyStartsWith sku "LCK-"
    && !(pyStartsWith product_title "--")

/-- `webhook.py::replace_line_item_in_order` over the four edit-call
outcomes: abort on a failed begin or add, bind the DELETE's result without
ever inspecting it, and succeed iff the commit response is non-`None`. -/
def replace_line_item_in_order (editEnv : EditEnv) : Bool :=
  match editEnv.beginResult with
  | none => false
  | some _order_edit_id =>
    match editEnv.addResult with
    | none => false
    | some _ =>
      let _removed := editEnv.removeResult
      match editEnv.commitResult with
      | some _ => true
      | none => false

/-- `webhook.py::add_serial_to_order`: fetch the order (fail → `False`),
build `f"{current_note}\nSerial: {serial}"` when the note is non-empty and
`f"Serial: {serial}"` otherwise, PUT it back, and return whether the PUT
succeeded. -/
def add_serial_to_order (env : Env) (serial : String) (w : World) :
    Bool × World :=
  if env.orderFetchOk then
    let current_note := w.note
    let new_note := if current_note = "" then "Serial: " ++ serial
        else current_note ++ "\n" ++ "Serial: " ++ serial
    if env.orderUpdateOk then (true, { w with note := new_note })
    else (false, w)
  else (false, w)

/-- One iteration of `webhook.py`'s loop over `order_data['line_items']`:
skip non-clock or already-processed items, skip `quantity != 1`, fetch the
master product (failure skips the item before any counter access), then
allocate the serial, and on success create the order product, replace the
line item (result unchecked) and log the sheet row.  Product creation,
line-item replacement and sheet logging touch only the product/order-edit/
sheet resources, never the counter. -/
def webhook_item_step (env : Env) (editEnv : EditEnv) (item : LineItem)
    (acc : World × List String) : World × List String :=
  let (w, serials_generated) := acc
  if webhook_is_clock_item item.sku item.title then
    if item.quantity ≠ 1 then (w, serials_generated)
    else if !env.masterOk then (w, serials_generated)
    else
      match get_next_serial env w with
      | (none, w) => (w, serials_generated)
      | (some (serial, _counter), w) =>
        let serials_generated := serials_generated ++ [serial]
        if env.createOk then
          let _replaced := replace_line_item_in_order editEnv
          let w := { w with productsCreated := w.productsCreated + 1 }
          let w := if env.sheetOk then
              { w with sheetRows := w.sheetRows + 1 } else w
          (w, serials_generated)
        else (w, serials_generated)
  else (w, serials_generated)

/-- The POST branch of `webhook.py::webhook`: the handler binds
`hmac_header = request.headers.get('X-Shopify-Hmac-Sha256', '')` but never
calls `verify_webhook` — processing proceeds for every request, whatever
the configured secret or the header.  It folds `webhook_item_step` over
the payload's line items, appends the joined serials to the order note
when any were generated, and responds `200` with the serial list. -/
def webhook_post (SHOPIFY_SECRET : String) (hmac_header : String)
    (line_items : List LineItem) (env : Env) (editEnv : EditEnv)
    (w : World) : (Nat × List String) × World :=
  let _ := SHOPIFY_SECRET
  let _ := hmac_header
  let (w, serials_generated) :=
    line_items.foldl (fun acc item => webhook_item_step env editEnv item acc)
      (w, [])
  let w := if serials_generated = [] then w
      else (add_serial_to_order env
        (String.intercalate ", " serials_generated) w).2
  ((200, serials_generated), w)

/-- `cleartime-webhook.py::CLEARTIME_SKU_PREFIXES`. -/
def CLEARTIME_SKU_PREFIXES : List String := ["CT", "FA", "MP", "KIT"]

/-- The guard of `cleartime-webhook.py::process_webhook`'s loop:
`is_cleartime = any(sku.upper().startswith(prefix) for prefix in
CLEARTIME_SKU_PREFIXES)` combined with
`if sku and is_cleartime and not product_title.startswith('--')`. -/
def ct_is_cleartime_item (sku product_title : String) : Bool :=
  (!decide (sku = ""))
    && (CLEARTIME_SKU_PREFIXES.any fun p => pyStartsWith (pyUpper sku) p)
    && !(pyStartsWith product_title "--")

/-- `cleartime-webhook.py::get_next_serial`: like the LCK allocator but
against the `cleartime_serial_counter` metafield, with
`serial = str(current)` (no prefix), and returning just the serial. -/
def ct_get_next_serial (env : Env) (w : World) : Option String × World :=
  let w := { w with counterReads := w.counterReads + 1 }
  if env.counterReadOk then
    match w.counter with
    | some (metafield_id, current) =>
      let serial := toString current
      let next_val := current + 1
      let w := { w with counterWrites := w.counterWrites + 1 }
      let w := if env.counterWriteOk then
          { w with counter := some (metafield_id, next_val) } else w
      (some serial, w)
    | none => (none, w)
  else (none, w)

/-- `cleartime-webhook.py::add_serial_to_order_note`: fetch the order,
join the serials with `', '`, and write back
`f"{current_note}\nCleartime Serial Numbers: {serial_text}"` (or fresh
text when no note existed). -/
def add_serial_to_order_note (env : Env) (serials : List String)
    (w : World) : Bool × World :=
  if env.orderFetchOk then
    let current_note := w.note
    let serial_text := String.intercalate ", " serials
    let new_note := if current_note = "" then
        "Cleartime Serial Numbers: " ++ serial_text
      else current_note ++ "\n" ++ "Cleartime Serial Numbers: " ++ serial_text
    if env.orderUpdateOk then (true, { w with note := new_note })
    else (false, w)
  else (false, w)

/-- One iteration of `cleartime-webhook.py::process_webhook`'s line-item
loop: skip non-cleartime or already-processed items, skip
`quantity != 1`, allocate a serial from the cleartime counter, and log the
row to the CTClocks sheet. -/
def ct_item_step (env : Env) (item : LineItem)
    (acc : World × List String) : World × List String :=
  let (w, serials_assigned) := acc
  if ct_is_cleartime_item item.sku item.title then
    if item.quantity ≠ 1 then (w, serials_assigned)
    else
      match ct_get_next_serial env w with
      | (none, w) => (w, serials_assigned)
      | (some serial, w) =>
        let serials_assigned := serials_assigned ++ [serial]
        let w := if env.sheetOk then
            { w with sheetRows := w.sheetRows + 1 } else w
        (w, serials_assigned)
  else (w, serials_assigned)

/-- `cleartime-webhook.py::process_webhook`: fold the item step over the
payload and append the collected serials to the order note when any were
assigned. -/
def process_webhook (env : Env) (line_items : List LineItem) (w : World) :
    List String × World :=
  let (w, serials_assigned) :=
    line_items.foldl (fun acc item => ct_item_step env item acc) (w, [])
  let w := if serials_assigned = [] then w
      else (add_serial_to_order_note env serials_assigned w).2
  (serials_assigned, w)

/-- The LCK guard of `process-order.py::process_order`:
`if sku and sku.upper().startswith('LCK-') and not
product_title.startswith('--')` — here the SKU is upper-cased first. -/
def po_is_lck_item (sku product_title : String) : Bool :=
  (!decide (sku = "")) && pyStartsWith (pyUpper sku) "LCK-"
    && !(pyStartsWith product_title "--")

/-- A catalog entry as scanned by `create_product.py::find_master_product`
(only the fields the scan reads). -/
structure CatalogProduct where
  id : Nat
  title : String
deriving DecidableEq

/-- The search-string normalisation at the top of `find_master_product`:
`search_lower = style_name.lower().strip()` followed by
`if not search_lower.endswith(':'): search_lower += ':'`. -/
def normalize_style (style_name : String) : String :=
  let search_lower := pyStrip (pyLower style_name)
  if pyEndsWith search_lower ":" then search_lower else search_lower ++ ":"

/-- The per-entry match of `find_master_product`:
`product['title'].lower().startswith(search_lower) and not
product['title'].startswith('--')`. -/
def master_title_match (search_lower : String) (title : String) : Bool :=
  pyStartsWith (pyLower title) search_lower && !(pyStartsWith title "--")

/-- The `since_id`-paginated scan of `find_master_product`: the catalog
feed is given as the list of successive 250-entry pages; the loop stops
once `found_products` reaches `max_products = 5000` or a fetch returns no
products, and returns the first matching entry of the first page that
contains one. -/
def scan_pages (search_lower : String) :
    List (List CatalogProduct) → Nat → Option CatalogProduct
  | [], _ => none
  | page :: rest, found_products =>
    if found_products < 5000 then
      if page.isEmpty then none
      else
        match page.find? (fun product =>
            master_title_match search_lower product.title) with
        | some product => some product
        | none => scan_pages search_lower rest (found_products + page.length)
    else none

/-- `create_product.py::find_master_product` over the paginated catalog
feed. -/
def find_master_product (style_name : String)
    (pages : List (List CatalogProduct)) : Option CatalogProduct :=
  scan_pages (normalize_style style_name) pages 0

/-! ## Helper lemmas -/

/-- Upper-casing a Python string preserves emptiness. -/
theorem pyUpper_eq_empty_iff (s : String) : pyUpper s = "" ↔ s = "" := by
  simp [pyUpper, String.ext_iff]

/-- Every entry returned by the paginated master scan satisfies the title
match against the search string. -/
theorem scan_pages_all (s : String) :
    ∀ (pages : List (List CatalogProduct)) (n : Nat),
      (scan_pages s pages n).all
        (fun product => master_title_match s product.title) = true := by
  intro pages
  induction pages with
  | nil => intro n; rfl
  | cons page rest ih =>
    intro n
    unfold scan_pages
    by_cases h5 : n < 5000
    · simp only [if_pos h5]
      cases he : page.isEmpty with
      | true => simp
      | false =>
        simp only [Bool.false_eq_true, if_neg, ite_false]
        cases hf : page.find? (fun product =>
            master_title_match s product.title) with
        | none => simpa using ih (n + page.length)
        | some p => simpa using List.find?_some hf
    · simp [h5]

/-! ## The claims -/

/-- C2: when the counter read succeeds with stored value `v`,
`get_next_serial` returns the serial `"LCK-" ++ v` together with `v`, and
(the increment write going through) leaves `v + 1` in the same counter
metafield. -/
theorem get_next_serial_success (env : Env) (w : World) (mfId : Nat)
    (v : Int) (hread : env.counterReadOk = true)
    (hwrite : env.counterWriteOk = true)
    (hc : w.counter = some (mfId, v)) :
    (get_next_serial env w).1 = some ("LCK-" ++ toString v, v)
      ∧ (get_next_serial env w).2.counter = some (mfId, v + 1) := by
  simp [get_next_serial, hread, hwrite, hc]

/-- Witness for C2: counter holds `1010`, allocation yields `LCK-1010`
and the counter becomes `1011`. -/
theorem get_next_serial_success_witness :
    (get_next_serial ⟨true, true, true, true, true, true, true⟩
        ⟨some (99, 1010), 0, 0, "", 0, 0⟩).1
      = some ("LCK-" ++ toString (1010 : Int), 1010)
    ∧ (get_next_serial ⟨true, true, true, true, true, true, true⟩
        ⟨some (99, 1010), 0, 0, "", 0, 0⟩).2.counter = some (99, 1010 + 1) :=
  get_next_serial_success _ _ 99 1010 rfl rfl rfl

/-- C4: after a successful counter read, the returned serial does not
depend on the outcome of the increment write — `env.counterWriteOk` is
arbitrary here, so the result is the same whether the PUT succeeds or
fails. -/
theorem get_next_serial_fire_and_forget (env : Env) (w : World)
    (mfId : Nat) (v : Int) (hread : env.counterReadOk = true)
    (hc : w.counter = some (mfId, v)) :
    (get_next_serial env w).1 = some ("LCK-" ++ toString v, v) := by
  simp [get_next_serial, hread, hc]

/-- Witness for C4: the increment write fails yet `LCK-1010` is still
issued. -/
theorem get_next_serial_fire_and_forget_witness :
    (get_next_serial ⟨true, false, true, true, true, true, true⟩
        ⟨some (99, 1010), 0, 0, "", 0, 0⟩).1
      = some ("LCK-" ++ toString (1010 : Int), 1010) :=
  get_next_serial_fire_and_forget _ _ 99 1010 rfl rfl

/-- C7: cleartime scenario — counter holds `42`, an eligible line item
with SKU `CT4024M` and quantity 1 is processed: the allocator returns the
bare serial `"42"` (no prefix) and the counter becomes `43` (one read,
one write, one sheet row). -/
theorem ct_scenario_counter_42 :
    ct_item_step ⟨true, true, true, true, true, true, true⟩
        ⟨"Cleartime Classic", 3, 5, "CT4024M", 1⟩
        (⟨some (7, 42), 0, 0, "", 0, 0⟩, [])
      = (⟨some (7, 43), 1, 1, "", 1, 0⟩, ["42"]) := by decide

/-- C10: `replace_line_item_in_order`'s success value is exactly
"begin succeeded and add succeeded and commit succeeded", and it is
unchanged under any alteration of the remove (DELETE) call's outcome. -/
theorem replace_ignores_remove_result :
    (∀ editEnv : EditEnv,
        replace_line_item_in_order editEnv
          = (editEnv.beginResult.isSome
              && (editEnv.addResult.isSome && editEnv.commitResult.isSome)))
    ∧ ∀ (editEnv : EditEnv) (r1 r2 : Option Unit),
        replace_line_item_in_order { editEnv with removeResult := r1 }
          = replace_line_item_in_order { editEnv with removeResult := r2 } := by
  constructor
  · intro e
    obtain ⟨b, a, r, c⟩ := e
    cases b <;> cases a <;> cases c <;> rfl
  · intro e r1 r2
    obtain ⟨b, a, r, c⟩ := e
    cases b <;> cases a <;> cases c <;> rfl

/-- C5: a line item whose SKU matches no configured prefix, or whose
title already carries the `--` processed marker, is skipped whole by both
the webhook and the cleartime per-item steps: the serial list and the
entire world — counter value, counter read count, counter write count —
are left untouched. -/
theorem ineligible_item_untouched (env : Env) (editEnv : EditEnv)
    (item : LineItem) (w : World) (serials : List String)
    (hW : pyStartsWith item.sku "LCK-" = false
      ∨ pyStartsWith item.title "--" = true)
    (hC : (∀ p ∈ CLEARTIME_SKU_PREFIXES,
        pyStartsWith (pyUpper item.sku) p = false)
      ∨ pyStartsWith item.title "--" = true) :
    webhook_item_step env editEnv item (w, serials) = (w, serials)
    ∧ ct_item_step env item (w, serials) = (w, serials) := by
  have hWguard : webhook_is_clock_item item.sku item.title = false := by
    rcases hW with h | h <;> simp [webhook_is_clock_item, h]
  have hCguard : ct_is_cleartime_item item.sku item.title = false := by
    rcases hC with h | h
    · have hany : (CLEARTIME_SKU_PREFIXES.any fun p =>
          pyStartsWith (pyUpper item.sku) p) = false := by
        rw [Bool.eq_false_iff]
        rw [Ne, List.any_eq_true]
        rintro ⟨p, hp, hpp⟩
        rw [h p hp] at hpp
        exact Bool.false_ne_true hpp
      simp [ct_is_cleartime_item, hany]
    · simp [ct_is_cleartime_item, h]
  constructor
  · simp [webhook_item_step, hWguard]
  · simp [ct_item_step, hCguard]

/-- Witness for C5: SKU `XYZ-9` matches neither family, so neither step
touches anything. -/
theorem ineligible_item_untouched_witness :
    webhook_item_step ⟨true, true, true, true, true, true, true⟩
        ⟨some 5, some (), some (), some ()⟩ ⟨"Widget", 2, 3, "XYZ-9", 1⟩
        (⟨some (99, 1010), 0, 0, "", 0, 0⟩, [])
      = (⟨some (99, 1010), 0, 0, "", 0, 0⟩, [])
    ∧ ct_item_step ⟨true, true, true, true, true, true, true⟩
        ⟨"Widget", 2, 3, "XYZ-9", 1⟩
        (⟨some (99, 1010), 0, 0, "", 0, 0⟩, [])
      = (⟨some (99, 1010), 0, 0, "", 0, 0⟩, []) :=
  ineligible_item_untouched _ _ _ _ _ (Or.inl (by decide))
    (Or.inl (by decide))

/-- C9: the webhook step fetches the master product before touching the
counter: when the fetch fails on an eligible quantity-1 item, the item is
skipped with the world — in particular the counter value and its
read/write counts — and the serial list unchanged. -/
theorem master_fetch_fail_skips (env : Env) (editEnv : EditEnv)
    (item : LineItem) (w : World) (serials : List String)
    (helig : webhook_is_clock_item item.sku item.title = true)
    (hq : item.quantity = 1) (hm : env.masterOk = false) :
    webhook_item_step env editEnv item (w, serials) = (w, serials) := by
  simp [webhook_item_step, helig, hq, hm]

/-- Witness for C9: master fetch fails for eligible SKU `LCK-WADE`; no
counter read happens and no serial is issued. -/
theorem master_fetch_fail_skips_witness :
    webhook_item_step ⟨true, true, false, true, true, true, true⟩
        ⟨some 5, some (), some (), some ()⟩
        ⟨"Wade Clock", 7, 11, "LCK-WADE", 1⟩
        (⟨some (99, 1010), 0, 0, "", 0, 0⟩, [])
      = (⟨some (99, 1010), 0, 0, "", 0, 0⟩, []) :=
  master_fetch_fail_skips _ _ _ _ _ (by decide) rfl rfl

/-- C6: the note write-back of both note appenders: the new note is the
old note, a newline, and the serial-summary line when a non-empty note
existed, and just the summary line otherwise; the call reports success. -/
theorem append_note_formats (env : Env) (serial : String)
    (serials : List String) (w w2 : World)
    (hf : env.orderFetchOk = true) (hu : env.orderUpdateOk = true) :
    ((add_serial_to_order env serial w).1 = true
      ∧ (add_serial_to_order env serial w).2.note
          = if w.note = "" then "Serial: " ++ serial
            else w.note ++ "\n" ++ "Serial: " ++ serial)
    ∧ ((add_serial_to_order_note env serials w2).1 = true
      ∧ (add_serial_to_order_note env serials w2).2.note
          = if w2.note = "" then
              "Cleartime Serial Numbers: " ++ String.intercalate ", " serials
            else w2.note ++ "\n" ++ "Cleartime Serial Numbers: "
              ++ String.intercalate ", " serials) := by
  refine ⟨⟨?_, ?_⟩, ⟨?_, ?_⟩⟩ <;>
    simp [add_serial_to_order, add_serial_to_order_note, hf, hu]

/-- Witness for C6: an empty note gains exactly the line
`Serial: LCK-1010`; a note `Hello` gains the cleartime line after a
newline. -/
theorem append_note_formats_witness :
    ((add_serial_to_order ⟨true, true, true, true, true, true, true⟩
        "LCK-1010" ⟨some (99, 1011), 1, 1, "", 1, 1⟩).1 = true
      ∧ (add_serial_to_order ⟨true, true, true, true, true, true, true⟩
        "LCK-1010" ⟨some (99, 1011), 1, 1, "", 1, 1⟩).2.note
          = "Serial: LCK-1010")
    ∧ ((add_serial_to_order_note ⟨true, true, true, true, true, true, true⟩
        ["7"] ⟨some (7, 43), 1, 1, "Hello", 1, 0⟩).1 = true
      ∧ (add_serial_to_order_note ⟨true, true, true, true, true, true, true⟩
        ["7"] ⟨some (7, 43), 1, 1, "Hello", 1, 0⟩).2.note
          = "Hello\nCleartime Serial Numbers: 7") := by
  have h := append_note_formats ⟨true, true, true, true, true, true, true⟩
    "LCK-1010" ["7"] ⟨some (99, 1011), 1, 1, "", 1, 1⟩
    ⟨some (7, 43), 1, 1, "Hello", 1, 0⟩ rfl rfl
  simpa using h

/-- C3 counterexample: in `webhook.py` the SKU test is the case-sensitive
`sku.startswith('LCK-')`, so `lck-wade` is ineligible while `LCK-WADE`
is eligible — changing only the letter case changes eligibility. -/
theorem webhook_sku_case_counterexample :
    webhook_is_clock_item "lck-wade" "Wade Clock" = false
    ∧ webhook_is_clock_item "LCK-WADE" "Wade Clock" = true := by decide

/-- C3 amended: the eligibility tests of `process-order.py` (both
families share the upper-cased comparison) and `cleartime-webhook.py` are
case-insensitive — SKUs with the same upper-casing are treated alike. -/
theorem eligibility_case_fold (sku sku' title : String)
    (h : pyUpper sku = pyUpper sku') :
    po_is_lck_item sku title = po_is_lck_item sku' title
    ∧ ct_is_cleartime_item sku title = ct_is_cleartime_item sku' title := by
  have hempty : (decide (sku = "") : Bool) = decide (sku' = "") := by
    apply decide_eq_decide.mpr
    rw [← pyUpper_eq_empty_iff sku, ← pyUpper_eq_empty_iff sku', h]
  constructor
  · unfold po_is_lck_item
    rw [h, hempty]
  · unfold ct_is_cleartime_item
    rw [h, hempty]

/-- Witness for the amended C3: `lck-wade` and `LCK-WADE` upper-case
alike, so the process-order and cleartime tests agree on them. -/
theorem eligibility_case_fold_witness :
    po_is_lck_item "lck-wade" "Wade Clock"
        = po_is_lck_item "LCK-WADE" "Wade Clock"
    ∧ ct_is_cleartime_item "lck-wade" "Wade Clock"
        = ct_is_cleartime_item "LCK-WADE" "Wade Clock" :=
  eligibility_case_fold _ _ _ (by decide)

/-- C8: every entry the master scan returns satisfies the normalized
title match; `"Claret"` normalizes to `"claret:"`; `"Claret: Walnut"`
matches it while `"-- Claret: Walnut - Available"` is excluded; and on a
catalog page holding both, the scan returns the `Claret: Walnut` entry. -/
theorem find_master_normalize_and_match :
    (∀ (style_name : String) (pages : List (List CatalogProduct)),
        (find_master_product style_name pages).all
          (fun product =>
            master_title_match (normalize_style style_name) product.title)
          = true)
    ∧ normalize_style "Claret" = "claret:"
    ∧ master_title_match "claret:" "Claret: Walnut" = true
    ∧ master_title_match "claret:" "-- Claret: Walnut - Available" = false
    ∧ find_master_product "Claret"
        [[⟨1, "-- Claret: Walnut - Available"⟩, ⟨2, "Claret: Walnut"⟩]]
      = some ⟨2, "Claret: Walnut"⟩ := by
  refine ⟨?_, by decide, by decide, by decide, by decide⟩
  intro style_name pages
  exact scan_pages_all (normalize_style style_name) pages 0

/-- C1: the claimed 401-on-missing-signature behaviour is absent from the
code.  `verify_webhook` itself would reject an absent header whenever a
secret is configured (first conjunct), but the POST handler never calls
it: with a secret configured and no HMAC header, the request with an
eligible `LCK-WADE` item is processed anyway — it responds 200, allocates
`LCK-1010`, and mutates the counter from 1010 to 1011. -/
theorem webhook_skips_hmac_verification :
    (∀ (hmac_sha256_b64 : String → String → String) (body : String),
        verify_webhook hmac_sha256_b64 "shpss_sharedsecret" body ""
          = false)
    ∧ webhook_post "shpss_sharedsecret" ""
        [⟨"Wade Clock", 7, 11, "LCK-WADE", 1⟩]
        ⟨true, true, true, true, true, true, true⟩
        ⟨some 5, some (), some (), some ()⟩
        ⟨some (99, 1010), 0, 0, "", 0, 0⟩
      = ((200, ["LCK-1010"]),
          ⟨some (99, 1011), 1, 1, "Serial: LCK-1010", 1, 1⟩) := by
  constructor
  · intro f body
    simp [verify_webhook]
  · decide

end ShopifySerial
